import Mathlib

/-!
Verification development for the mini_google indexing/search core.

The Python modules under src/core are shallowly embedded below:
Python dicts become association lists (insertion-ordered, unique keys
as a hypothesis where it matters), Python sets become duplicate-free
lists in loop-insertion order, Python floats (mtimes, scores) become
rationals, fallible operations return Except, and file-system access
is passed in explicitly as data.  Python str operations are modelled
character-wise on the underlying character list (Python casefold is
modelled as ASCII lowercasing, which agrees on all ASCII text).

The data model in src/core/models.py is stale: its Hit NamedTuple declares
the fields (file_id, line_no, start, end), while indexer.py, persist.py and
query.py construct hits with the keywords (file_id, unit_index, count) and
read the attributes unit_index and count.  Every such construction raises
TypeError and every such attribute read raises AttributeError.  The
operations built on them (build_index, add_file_to_index, save_index,
load_index, search_and) are therefore embedded in Except and return the
error the source raises at the point the source raises it; an exception
abandons the Python call, so an error result carries no partial state.
engine.py additionally uses deepcopy without importing it, so its
incremental rebuild raises NameError on every call.
-/

namespace MiniGoogle

/-! ## Python string primitives, modelled on the character list -/

/-- Python str.lower / str.casefold, modelled as character-wise ASCII lowercasing. -/
def pyLower (s : String) : String := String.mk (s.data.map Char.toLower)

/-- Python str.strip(): drop whitespace from both ends. -/
def pyStrip (s : String) : String :=
  String.mk (((s.data.dropWhile Char.isWhitespace).reverse.dropWhile Char.isWhitespace).reverse)

/-- Python str.rstrip(): drop trailing whitespace. -/
def pyRstrip (s : String) : String :=
  String.mk ((s.data.reverse.dropWhile Char.isWhitespace).reverse)

/-- Python s[:n]: the first n characters. -/
def pyTake (n : Nat) (s : String) : String := String.mk (s.data.take n)

/-- Python len(s) in characters. -/
def pyLen (s : String) : Nat := s.data.length

/-- Python s[:-1]: drop the last character. -/
def pyDropLast (s : String) : String := String.mk s.data.dropLast

/-- Python sep.join(parts). -/
def pyJoin (sep : String) : List String → String
  | [] => ""
  | [x] => x
  | x :: xs => x ++ sep ++ pyJoin sep xs

/-- Helper for splitting a character list on whitespace runs (Python str.split()). -/
def splitWsAux : List Char → List Char → List String
  | [], acc => if acc.isEmpty then [] else [String.mk acc.reverse]
  | c :: rest, acc =>
    if c.isWhitespace then
      if acc.isEmpty then splitWsAux rest [] else String.mk acc.reverse :: splitWsAux rest []
    else splitWsAux rest (c :: acc)

/-! ## Python dict / set primitives over association lists -/

/-- Python d.get(k, dflt) / d[k] where the key is known to be present:
the value of the first entry with the given key, or the default. -/
def lookupD {κ α : Type} [DecidableEq κ] (d : List (κ × α)) (k : κ) (dflt : α) : α :=
  match d.find? (fun p => decide (p.1 = k)) with
  | some p => p.2
  | none => dflt

/-- Python k in d for a dict. -/
def hasKey {κ α : Type} [DecidableEq κ] (d : List (κ × α)) (k : κ) : Bool :=
  (d.find? (fun p => decide (p.1 = k))).isSome

/-- Python d[k] = v: overwrite in place if the key exists (keeping its
position, as Python dicts do), else append a new entry at the end. -/
def dictSet {κ α : Type} [DecidableEq κ] : List (κ × α) → κ → α → List (κ × α)
  | [], k, v => [(k, v)]
  | (k0, v0) :: rest, k, v =>
    if k0 = k then (k0, v) :: rest else (k0, v0) :: dictSet rest k v

/-- Python d.setdefault(k, []).append(x) for a dict of lists: append x to the
first entry with this key, or create the entry at the end with [x]. -/
def dictListAppend {κ β : Type} [DecidableEq κ] : List (κ × List β) → κ → β → List (κ × List β)
  | [], k, x => [(k, [x])]
  | (k0, l0) :: rest, k, x =>
    if k0 = k then (k0, l0 ++ [x]) :: rest else (k0, l0) :: dictListAppend rest k x

/-- Python d.setdefault(k, []).extend(xs) for a dict of lists. -/
def dictListExtend {κ β : Type} [DecidableEq κ] : List (κ × List β) → κ → List β → List (κ × List β)
  | [], k, xs => [(k, xs)]
  | (k0, l0) :: rest, k, xs =>
    if k0 = k then (k0, l0 ++ xs) :: rest else (k0, l0) :: dictListExtend rest k xs

/-- First-occurrence deduplication, the order in which Python builds a set or
dict.fromkeys from a list; seen carries the elements already emitted. -/
def pyDedup {α : Type} [DecidableEq α] (seen : List α) : List α → List α
  | [] => []
  | x :: xs => if x ∈ seen then pyDedup seen xs else x :: pyDedup (x :: seen) xs

/-! ## src/core/tokenizer.py -/

/-- Character class kept by normalize_text: `[a-zA-Z\d\s]`. -/
def isWordChar (c : Char) : Bool := c.isAlpha || c.isDigit || c.isWhitespace

/-- normalize_text from src/core/tokenizer.py.  Splitting on every character
matching `[^a-zA-Z\d\s]` and joining the pieces with single spaces replaces each
such character by a space; then casefold unless case_sensitive; then digits
become spaces unless keep_numbers. -/
def normalize_text (text : String) (keep_numbers : Bool) (case_sensitive : Bool) : String :=
  let joined := String.mk (text.data.map (fun c => if isWordChar c then c else ' '))
  let folded := if case_sensitive then joined else pyLower joined
  if keep_numbers then folded
  else String.mk (folded.data.map (fun c => if c.isDigit then ' ' else c))

/-- split_to_tokens from src/core/tokenizer.py: Python text.split(). -/
def split_to_tokens (text : String) : List String := splitWsAux text.data []

/-- One iteration of the filter_tokens loop: append the token when it is long
enough, not a stopword, and not already collected. -/
def filterTokensStep (stopwords : List String) (min_length : Nat)
    (acc : List String) (tok : String) : List String :=
  if min_length ≤ pyLen tok ∧ tok ∉ stopwords ∧ tok ∉ acc then acc ++ [tok] else acc

/-- filter_tokens from src/core/tokenizer.py: keep tokens of at least the
minimum length that are not stopwords and not already collected (so the
output has no duplicates).  stopwords = None is modelled by the empty list. -/
def filter_tokens (tokens : List String) (stopwords : List String) (min_length : Nat) : List String :=
  tokens.foldl (filterTokensStep stopwords min_length) []

/-- tokenize_unit from src/core/tokenizer.py. -/
def tokenize_unit (unit : String) (min_length : Nat) (stopwords : List String)
    (keep_numbers : Bool) (case_sensitive : Bool) : List String :=
  filter_tokens (split_to_tokens (normalize_text unit keep_numbers case_sensitive)) stopwords min_length

/-! ## src/core/models.py -/

inductive FileType : Type
  | TXT
  | LOG
  | PY
  | MD
deriving DecidableEq

/-- Python Enum member .name, as used by save_index. -/
def FileType.pyName : FileType → String
  | .TXT => "TXT"
  | .LOG => "LOG"
  | .PY => "PY"
  | .MD => "MD"

/-- Python FileType[name] member lookup, as used by load_index. -/
def fileTypeOfName : String → Option FileType
  | "TXT" => some FileType.TXT
  | "LOG" => some FileType.LOG
  | "PY" => some FileType.PY
  | "MD" => some FileType.MD
  | _ => none

/-- FileRecord from src/core/models.py; the float mtime is modelled as a rational. -/
structure FileRecord : Type where
  path : String
  size : Nat
  mtime : ℚ
  filetype : FileType
deriving DecidableEq

/-- Hit exactly as DECLARED in src/core/models.py lines 19-24: a NamedTuple
with the fields file_id, line_no, start and end (the last two optional ints
with no default values).  This is the only Hit type the program has; the
fields unit_index and count that indexer.py, persist.py and query.py use do
not exist on it.  A positional four-argument construction (the only way the
type can be instantiated) succeeds; the constructions the index/persist
modules attempt are modelled below and fail as the source does. -/
structure Hit : Type where
  file_id : Nat
  line_no : Nat
  start : Option Nat
  «end» : Option Nat
deriving DecidableEq

/-- Field names of the Hit NamedTuple as declared in src/core/models.py lines 19-24. -/
def modelsHitDeclaredFields : List String := ["file_id", "line_no", "start", "end"]

/-- Keyword-argument names with which build_index (src/core/indexer.py lines 91-95)
and add_file_to_index (lines 269-273) construct a Hit. -/
def indexerHitConstructionKeywords : List String := ["file_id", "unit_index", "count"]

/-- SearchResult from src/core/models.py; the float score is modelled as a rational. -/
structure SearchResult : Type where
  path : String
  matches_count : Nat
  score : ℚ
  snippets : List String
deriving DecidableEq

/-- The exceptions the embedded operations can raise. -/
inductive PyError : Type
  | typeErrorHitKeywords
  | typeErrorHitMissingEnd
  | attributeErrorHitUnitIndex
  | attributeErrorHitCount
  | typeErrorOpenUnitsList
  | nameErrorDeepcopy
  | indexErrorFiles
  | keyErrorUnitStore
  | runtimeErrorUnsupportedVersion
  | valueErrorUnknownFileType
deriving DecidableEq

instance {ε α : Type} [DecidableEq ε] [DecidableEq α] : DecidableEq (Except ε α) :=
  fun a b =>
    match a, b with
    | Except.ok x, Except.ok y => if h : x = y then isTrue (by rw [h]) else isFalse (by simp [h])
    | Except.error x, Except.error y =>
      if h : x = y then isTrue (by rw [h]) else isFalse (by simp [h])
    | Except.ok _, Except.error _ => isFalse (by simp)
    | Except.error _, Except.ok _ => isFalse (by simp)

/-- The inverted index: token -> postings, a Python dict modelled as an
insertion-ordered association list. -/
abbrev Index := List (String × List Hit)

/-- The unit store: file id -> ordered units. -/
abbrev UnitStore := List (Nat × List String)

instance : DecidableEq (List (Nat × FileRecord)) := inferInstance

instance : DecidableEq (List (String × Nat) × Index) := inferInstance

instance : DecidableEq (List (Nat × FileRecord) × List (String × Nat) × Index) := inferInstance

/-! ## Operations on the declared Hit that the live modules attempt

models.py's Hit declares neither unit_index nor count, so every construction
with those keywords and every read of those attributes raises; these four
definitions are the embeddings of those operations.  The parameters mirror
the source call sites; they are necessarily unused because the operation
fails before consuming them. -/

/-- Hit(file_id=..., unit_index=..., count=...) as called by build_index
(indexer.py lines 91-95) and add_file_to_index (lines 269-273): TypeError,
unexpected keyword argument unit_index. -/
def mk_hit_with_kwargs (_file_id _unit_index _count : Nat) : Except PyError Hit :=
  Except.error PyError.typeErrorHitKeywords

/-- Hit(fid, h[0], h[1]) as called by load_index (persist.py line 131): three
positional arguments for the four-field NamedTuple whose end field has no
default, so TypeError, missing required positional argument end. -/
def mk_hit_positional3 (_fid _a _b : Nat) : Except PyError Hit :=
  Except.error PyError.typeErrorHitMissingEnd

/-- hit.unit_index as read by save_index (persist.py line 69) and search_and
(query.py line 97): AttributeError, Hit has no attribute unit_index. -/
def hit_attr_unit_index (_h : Hit) : Except PyError Nat :=
  Except.error PyError.attributeErrorHitUnitIndex

/-- hit.count as read by save_index (persist.py line 69) and _tf (query.py
line 177): AttributeError, Hit has no attribute count. -/
def hit_attr_count (_h : Hit) : Except PyError Nat :=
  Except.error PyError.attributeErrorHitCount

/-! ## src/core/indexer.py -/

/-- One step of collections.Counter: count an occurrence of a token.
Counter iteration order is first-occurrence order, which this preserves. -/
def counterAdd : List (String × Nat) → String → List (String × Nat)
  | [], t => [(t, 1)]
  | (k, n) :: rest, t =>
    if k = t then (k, n + 1) :: rest else (k, n) :: counterAdd rest t

/-- collections.Counter(tokens).items() in first-occurrence order. -/
def counter_items (tokens : List String) : List (String × Nat) :=
  tokens.foldl counterAdd []

/-- The per-token loop shared by build_index (indexer.py lines 86-95) and
add_file_to_index (lines 264-273): ensure the token's posting list exists
(index[token] = []), then construct Hit(file_id=..., unit_index=...,
count=...), which raises TypeError against the declared Hit, so the loop
errors at its first token; it succeeds (leaving the index unchanged) only
when the counter is empty. -/
def index_tokens_loop (file_id unit_index : Nat) :
    Index → List (String × Nat) → Except PyError Index
  | idx, [] => Except.ok idx
  | idx, tc :: rest =>
    let idx2 := if hasKey idx tc.1 then idx else idx ++ [(tc.1, [])]
    match mk_hit_with_kwargs file_id unit_index tc.2 with
    | Except.error e => Except.error e
    | Except.ok hit => index_tokens_loop file_id unit_index (dictListAppend idx2 tc.1 hit) rest

/-- The per-unit loop shared by build_index and add_file_to_index:
for unit_index, unit in enumerate(units), tokenize (tokenize_unit is called
without case_sensitive, so it defaults to False) and count. -/
def index_units_loop (file_id : Nat) (min_length : Nat) (stopwords : List String)
    (keep_numbers : Bool) : Index → List (Nat × String) → Except PyError Index
  | idx, [] => Except.ok idx
  | idx, p :: rest =>
    match index_tokens_loop file_id p.1 idx
        (counter_items (tokenize_unit p.2 min_length stopwords keep_numbers false)) with
    | Except.error e => Except.error e
    | Except.ok idx2 => index_units_loop file_id min_length stopwords keep_numbers idx2 rest

/-- The per-file loop of build_index (indexer.py lines 72-95), fetching each
file's units with unit_store.get(file_id, []). -/
def build_index_files_loop (unit_store : UnitStore) (min_length : Nat)
    (stopwords : List String) (keep_numbers : Bool) :
    Index → List (Nat × FileRecord) → Except PyError Index
  | idx, [] => Except.ok idx
  | idx, fp :: rest =>
    match index_units_loop fp.1 min_length stopwords keep_numbers idx
        (lookupD unit_store fp.1 []).enum with
    | Except.error e => Except.error e
    | Except.ok idx2 => build_index_files_loop unit_store min_length stopwords keep_numbers idx2 rest

/-- build_index from src/core/indexer.py lines 61-97.  It raises TypeError at
its first Hit construction, so it returns a (necessarily empty) index only
when no unit of any file yields a token. -/
def build_index (files : List (Nat × FileRecord)) (unit_store : UnitStore)
    (min_length : Nat) (stopwords : List String) (keep_numbers : Bool) :
    Except PyError Index :=
  build_index_files_loop unit_store min_length stopwords keep_numbers [] files

/-- build_casefold_index from src/core/indexer.py lines 99-117 (the identical
copy in src/core/query.py lines 26-37 is the one search_and calls): re-key
every token by its casefold and extend (concatenate) the postings.  It only
reads tokens and whole posting lists, never a hit attribute, so it does not
raise. -/
def build_casefold_index (index : Index) : Index :=
  index.foldl (fun ci p => dictListExtend ci (pyLower p.1) p.2) []

/-- assign_file_ids from src/core/indexer.py lines 119-144.  Paths already in
existing_id_by_path keep their id; new paths get max(existing ids)+1, +2, ...
in scan order (max over an empty dict is -1 in the source, so allocation
starts at 0). -/
def assign_file_ids (existing_id_by_path : List (String × Nat)) (scanned : List FileRecord) :
    List (Nat × FileRecord) × List (String × Nat) :=
  let start := (existing_id_by_path.map Prod.snd).foldl (fun a v => max a (v + 1)) 0
  let step := fun (st : List (Nat × FileRecord) × List (String × Nat) × Nat) (f : FileRecord) =>
    let fid := if hasKey existing_id_by_path f.path
               then lookupD existing_id_by_path f.path 0 else st.2.2
    let next := if hasKey existing_id_by_path f.path then st.2.2 else st.2.2 + 1
    (dictSet st.1 fid f, dictSet st.2.1 f.path fid, next)
  let out := scanned.foldl step ([], [], start)
  (out.1, out.2.1)

/-- Size/mtime comparison from diff_files: identical size and mtime within the
2.0-second tolerance. -/
def sameFileState (oldf newf : FileRecord) : Bool :=
  decide (oldf.size = newf.size) && decide (|oldf.mtime - newf.mtime| ≤ 2)

/-- Whether a new entry is classified unchanged: its id exists in old and
size/mtime match within tolerance. -/
def isUnchangedEntry (old : List (Nat × FileRecord)) (p : Nat × FileRecord) : Bool :=
  match old.find? (fun q => decide (q.1 = p.1)) with
  | some q => sameFileState q.2 p.2
  | none => false

/-- diff_files from src/core/indexer.py lines 147-176.  The source accumulates
Python sets while iterating new_files_by_id; sets are modelled as
duplicate-free lists in loop-insertion order (filter preserves that order),
and deleted = set(old) - set(new) is the old-only keys in old order.
Returns (unchanged, modified, deleted, added) as in the source. -/
def diff_files (old new : List (Nat × FileRecord)) :
    List Nat × List Nat × List Nat × List Nat :=
  let unchanged := (new.filter (fun p => isUnchangedEntry old p)).map Prod.fst
  let modified := (new.filter (fun p => hasKey old p.1 && !isUnchangedEntry old p)).map Prod.fst
  let added := (new.filter (fun p => !hasKey old p.1)).map Prod.fst
  let deleted := pyDedup [] ((old.map Prod.fst).filter (fun k => !hasKey new k))
  (unchanged, modified, deleted, added)

/-- remove_file_from_index from src/core/indexer.py lines 227-240: strip every
Hit of the file id from every posting list, then delete tokens whose list is
empty (including lists that were already empty).  It reads only hit.file_id,
which the declared Hit does have, so it does not raise. -/
def remove_file_from_index (index : Index) (file_id : Nat) : Index :=
  (index.map (fun p => (p.1, p.2.filter (fun h => !decide (h.file_id = file_id))))).filter
    (fun p => !p.2.isEmpty)

/-- add_file_to_index from src/core/indexer.py lines 242-273: the same
per-unit loop as build_index (the source bodies are identical), appending to
the given index; like build_index it calls tokenize_unit without
case_sensitive, and like build_index it raises TypeError at its first Hit
construction, so it is a no-op success only when no unit yields a token. -/
def add_file_to_index (index : Index) (file_id : Nat) (units : List String)
    (min_length : Nat) (stopwords : List String) (keep_numbers : Bool) :
    Except PyError Index :=
  index_units_loop file_id min_length stopwords keep_numbers index units.enum

/-- build_unit_store_incremental from src/core/indexer.py lines 42-58.  The
extraction layer (os.path.splitext plus extract_units_by_extension, which
reads the file system) is passed in as the function fsExtract from path and
case sensitivity to the extracted units. -/
def build_unit_store_incremental (fsExtract : String → Bool → List String)
    (files_to_process : List (Nat × FileRecord)) (case_sensitive : Bool) : UnitStore :=
  files_to_process.map (fun p => (p.1, fsExtract p.2.path case_sensitive))

/-! ## src/core/engine.py -/

/-- Result tuple the incremental rebuild in src/core/engine.py is annotated
to return; no call ever constructs it, because the body raises first. -/
structure RebuildOut : Type where
  files_by_id : List (Nat × FileRecord)
  id_by_path : List (String × Nat)
  unit_store : UnitStore
  index : Index
  casefold_index : Index
deriving DecidableEq

/-- rebuild_index_incremental from src/core/engine.py lines 6-66.  The initial
scan_files call reads the file system, so the scanned records are passed in
as scanned, and extraction is the fsExtract function as in
build_unit_store_incremental; Python set iteration is modelled by iterating
the duplicate-free lists diff_files produces, and the dict accesses
old_unit_store[fid] / new_files_by_id[fid] by lookup (the keys are present
for consistent snapshots).  engine.py imports only Path, the model types,
extractors and indexer — never deepcopy — so the statement
new_index = deepcopy(old_index) at line 50 raises NameError on every call,
after the unit store has been rebuilt and before the stale-posting removal,
the additions, and the line-63 build_casefold_index(old_index) can run.
The binders are underscore-prefixed where the computed value is unreachable
dead state abandoned by the exception. -/
def engine_rebuild_index_incremental (fsExtract : String → Bool → List String)
    (old_files_by_id : List (Nat × FileRecord)) (old_id_by_path : List (String × Nat))
    (old_unit_store : UnitStore) (_old_index : Index) (scanned : List FileRecord)
    (_min_length : Nat) (_stopwords : List String) (_keep_numbers case_sensitive : Bool) :
    Except PyError RebuildOut :=
  let assigned := assign_file_ids old_id_by_path scanned
  let new_files_by_id := assigned.1
  let _new_id_by_path := assigned.2
  let diffed := diff_files old_files_by_id new_files_by_id
  let unchanged := diffed.1
  let modified := diffed.2.1
  let _deleted := diffed.2.2.1
  let added := diffed.2.2.2
  let store0 := unchanged.foldl
    (fun st fid => dictSet st fid (lookupD old_unit_store fid [])) []
  let ids_to_process := pyDedup [] (added ++ modified)
  let files_to_process := ids_to_process.filterMap
    (fun fid => (new_files_by_id.find? (fun p => decide (p.1 = fid))).map (fun p => (fid, p.2)))
  let processed := build_unit_store_incremental fsExtract files_to_process case_sensitive
  let _new_unit_store := processed.foldl (fun st p => dictSet st p.1 p.2) store0
  Except.error PyError.nameErrorDeepcopy

/-! ## src/core/persist.py

save_index writes meta.json and index.jsonl.gz; load_index reads them back.
The two files are modelled structurally as a SavedSnapshot value: gzip and
JSON text encoding are a bijection on the structured data (ints round-trip
exactly through JSON, and the str(file_id)/int(file_id_str) key conversion is
a bijection on naturals).  Of the caller-supplied meta dict only
index_format_version is consulted by load; the validation step of load_index
only annotates the returned metadata. -/

/-- One element of the files array in meta.json. -/
structure SavedFileEntry : Type where
  id : Nat
  path : String
  size : Nat
  mtime : ℚ
  filetype_name : String
deriving DecidableEq

/-- The persisted pair meta.json + index.jsonl.gz, structurally.  Each element
of index_lines is one JSONL line: a token and its hits grouped by file id,
each group a list of [unit_index, count] pairs. -/
structure SavedSnapshot : Type where
  index_format_version : String
  id_by_path : List (String × Nat)
  files : List SavedFileEntry
  index_lines : List (String × List (Nat × List (Nat × Nat)))
deriving DecidableEq

/-- SUPPORTED_INDEX_FORMAT_VERSIONS from src/core/persist.py line 9. -/
def supportedIndexFormatVersions : List String := ["1"]

/-- The hits-grouping loop of save_index (persist.py lines 67-69):
token_entry["hits"].setdefault(str(hit.file_id), []).append([hit.unit_index,
hit.count]).  Reading hit.unit_index raises AttributeError on the declared
Hit, so the loop errors at its first hit and succeeds only on an empty
posting list. -/
def hits_group_loop : List (Nat × List (Nat × Nat)) → List Hit →
    Except PyError (List (Nat × List (Nat × Nat)))
  | g, [] => Except.ok g
  | g, h :: rest =>
    match hit_attr_unit_index h with
    | Except.error e => Except.error e
    | Except.ok u =>
      match hit_attr_count h with
      | Except.error e => Except.error e
      | Except.ok c => hits_group_loop (dictListAppend g h.file_id (u, c)) rest

/-- group_hits: the grouping of one token's postings in save_index. -/
def group_hits (hits : List Hit) : Except PyError (List (Nat × List (Nat × Nat))) :=
  hits_group_loop [] hits

/-- The token-line loop of save_index (persist.py lines 61-71). -/
def save_lines_loop : List (String × List (Nat × List (Nat × Nat))) → Index →
    Except PyError (List (String × List (Nat × List (Nat × Nat))))
  | acc, [] => Except.ok acc
  | acc, p :: rest =>
    match group_hits p.2 with
    | Except.error e => Except.error e
    | Except.ok g => save_lines_loop (acc ++ [(p.1, g)]) rest

/-- save_index from src/core/persist.py lines 14-76 (meta is represented by
the index_format_version it carries; the out_dir existence check and I/O
error wrapping concern the file system only).  The meta/files part is pure;
the index part raises AttributeError at the first posting of the first
token whose list is nonempty. -/
def save_index (files_by_id : List (Nat × FileRecord)) (id_by_path : List (String × Nat))
    (index : Index) (meta_version : String) : Except PyError SavedSnapshot :=
  match save_lines_loop [] index with
  | Except.error e => Except.error e
  | Except.ok lines =>
    Except.ok
      { index_format_version := meta_version
        id_by_path := id_by_path
        files := files_by_id.map (fun p => ⟨p.1, p.2.path, p.2.size, p.2.mtime, p.2.filetype.pyName⟩)
        index_lines := lines }

/-- The file-record reconstruction loop of load_index (persist.py lines
110-115): FileType[name] lookup, ValueError on an unknown name, dict
assignment all_file_records[f["id"]] = FileRecord(...). -/
def load_files : List (Nat × FileRecord) → List SavedFileEntry →
    Except PyError (List (Nat × FileRecord))
  | acc, [] => Except.ok acc
  | acc, e :: rest =>
    match fileTypeOfName e.filetype_name with
    | none => Except.error PyError.valueErrorUnknownFileType
    | some ft => load_files (dictSet acc e.id ⟨e.path, e.size, e.mtime, ft⟩) rest

/-- The inner pair loop of load_index's index reconstruction (persist.py line
131): each [unit_index, count] pair becomes Hit(fid, h[0], h[1]), which
raises TypeError against the declared Hit, so any group with a pair errors. -/
def ungroup_pairs_loop (fid : Nat) : List Hit → List (Nat × Nat) →
    Except PyError (List Hit)
  | acc, [] => Except.ok acc
  | acc, uc :: rest =>
    match mk_hit_positional3 fid uc.1 uc.2 with
    | Except.error e => Except.error e
    | Except.ok h => ungroup_pairs_loop fid (acc ++ [h]) rest

/-- The per-file-id group loop of load_index's index reconstruction
(persist.py lines 129-131). -/
def ungroup_hits : List Hit → List (Nat × List (Nat × Nat)) →
    Except PyError (List Hit)
  | acc, [] => Except.ok acc
  | acc, grp :: rest =>
    match ungroup_pairs_loop grp.1 acc grp.2 with
    | Except.error e => Except.error e
    | Except.ok acc2 => ungroup_hits acc2 rest

/-- The token-line loop of load_index (persist.py lines 123-131):
index_dict[token] = [] then extended per group. -/
def load_lines_loop : Index → List (String × List (Nat × List (Nat × Nat))) →
    Except PyError Index
  | d, [] => Except.ok d
  | d, line :: rest =>
    match ungroup_hits [] line.2 with
    | Except.error e => Except.error e
    | Except.ok hits => load_lines_loop (dictSet d line.1 hits) rest

/-- load_index from src/core/persist.py lines 82-139, on the structural
snapshot: version check, file records, id_by_path, inverted index.  The
missing-file check and validate_index concern the file system and the
returned metadata annotation only.  Reconstructing any posting raises
TypeError at the three-argument Hit construction. -/
def load_index (s : SavedSnapshot) :
    Except PyError (List (Nat × FileRecord) × List (String × Nat) × Index) :=
  if supportedIndexFormatVersions.contains s.index_format_version then
    match load_files [] s.files with
    | Except.error e => Except.error e
    | Except.ok files =>
      match load_lines_loop [] s.index_lines with
      | Except.error e => Except.error e
      | Except.ok idx => Except.ok (files, s.id_by_path, idx)
  else Except.error PyError.runtimeErrorUnsupportedVersion

/-! ## src/core/query.py (AND mode) -/

/-- tokenize_query from src/core/query.py lines 10-24. -/
def tokenize_query (query : String) (min_length : Nat) (stopwords : List String)
    (keep_numbers case_sensitive : Bool) : List String :=
  tokenize_unit query min_length stopwords keep_numbers case_sensitive

/-- unique_preserve_order from src/core/query.py lines 224-225:
list(dict.fromkeys(tokens)) keeps the first occurrence of each token. -/
def unique_preserve_order (tokens : List String) : List String := pyDedup [] tokens

/-- Postings consulted for one query token (query.py lines 74-77): the raw
index at the token when case-sensitive, else the casefold index at the
casefolded token, defaulting to []. -/
def consulted_hits (case_sensitive : Bool) (index cfIndex : Index) (tok : String) : List Hit :=
  if case_sensitive then lookupD index tok []
  else lookupD cfIndex (pyLower tok) []

/-- Python set comprehension over hit file ids ({h.file_id for h in hits},
query.py line 83; file_id exists on the declared Hit), modelled as the
duplicate-free list of file ids in first-occurrence order. -/
def hit_file_ids (hits : List Hit) : List Nat := pyDedup [] (hits.map Hit.file_id)

/-- The token loop of search_and (query.py lines 72-83): fetch each token's
aggregated hits, returning none for the strict-AND early exit when some token
has no postings, else the token-to-hits map and the per-token file-id sets.
No hit attribute beyond file_id is read here, so this part does not raise. -/
def fetch_token_hits (case_sensitive : Bool) (index cfIndex : Index) :
    List String → Option (List (String × List Hit) × List (List Nat))
  | [] => some ([], [])
  | tok :: rest =>
    let hits := consulted_hits case_sensitive index cfIndex tok
    if hits.isEmpty then none
    else
      match fetch_token_hits case_sensitive index cfIndex rest with
      | none => none
      | some (assoc, fsets) => some ((tok, hits) :: assoc, hit_file_ids hits :: fsets)

/-- set.intersection(*token_file_sets): intersect the file-id sets (kept as
duplicate-free lists).  The source never calls it on an empty collection. -/
def intersect_file_sets : List (List Nat) → List Nat
  | [] => []
  | s :: rest => rest.foldl (fun acc t => acc.filter (fun x => t.contains x)) s

/-- The inner hit loop of the matches_count computation (query.py lines
96-99): the conjunction h.file_id == file_id and h.unit_index not in
units_used short-circuits, so h.unit_index — which raises AttributeError on
the declared Hit — is read exactly when the file id matches. -/
def count_hits_for_token (fid : Nat) : (Nat × List Nat) → List Hit →
    Except PyError (Nat × List Nat)
  | st, [] => Except.ok st
  | st, h :: rest =>
    if h.file_id = fid then
      match hit_attr_unit_index h with
      | Except.error e => Except.error e
      | Except.ok u =>
        if u ∈ st.2 then count_hits_for_token fid st rest
        else count_hits_for_token fid (st.1 + 1, st.2 ++ [u]) rest
    else count_hits_for_token fid st rest

/-- The token loop of the matches_count computation (query.py lines 94-99). -/
def count_matches_loop (assoc : List (String × List Hit)) (fid : Nat) :
    (Nat × List Nat) → List String → Except PyError (Nat × List Nat)
  | st, [] => Except.ok st
  | st, tok :: rest =>
    match count_hits_for_token fid st (lookupD assoc tok []) with
    | Except.error e => Except.error e
    | Except.ok st2 => count_matches_loop assoc fid st2 rest

/-- matches_count for one file (query.py lines 92-99): distinct units
containing at least one occurrence of at least one query token; it raises
AttributeError at the first hit whose file id matches. -/
def count_matches (assoc : List (String × List Hit)) (qtokens : List String) (fid : Nat) :
    Except PyError Nat :=
  match count_matches_loop assoc fid (0, []) qtokens with
  | Except.error e => Except.error e
  | Except.ok st => Except.ok st.1

/-- The generator sum of _tf (query.py line 177): hit.file_id is tested
first, then hit.count is read for matching hits — raising AttributeError at
the first match; with no matching hit the sum is 0. -/
def tf_sum_loop (fid : Nat) : List Hit → Except PyError Nat
  | [] => Except.ok 0
  | h :: rest =>
    if h.file_id = fid then
      match hit_attr_count h with
      | Except.error e => Except.error e
      | Except.ok c =>
        match tf_sum_loop fid rest with
        | Except.error e => Except.error e
        | Except.ok s => Except.ok (c + s)
    else tf_sum_loop fid rest

/-- The token loop of _tfidf_score_for_file (query.py lines 182-201), over
the distinct query tokens.  A token absent from the dict gives tf = idf = 0
(the source returns 0.0 for each), contributing nothing.  For a present
token the tf sum raises at the first matching hit's count read; when it
returns it is necessarily 0, so tf = sqrt(0) = 0.0 and the float
contribution is exactly 0 whatever the (finite) idf factor is — hence the
accumulator is unchanged in every non-raising case, keeping the float
arithmetic exactly representable. -/
def tfidf_loop (idx : Index) (fid : Nat) : ℚ → List String → Except PyError ℚ
  | acc, [] => Except.ok acc
  | acc, tok :: rest =>
    if hasKey idx tok then
      match tf_sum_loop fid (lookupD idx tok []) with
      | Except.error e => Except.error e
      | Except.ok _ => tfidf_loop idx fid acc rest
    else tfidf_loop idx fid acc rest

/-- _tfidf_score_for_file (query.py lines 182-201); the set of query tokens
is iterated as the duplicate-free token list. -/
def tfidf_score_for_file (idx : Index) (qtokens : List String) (fid : Nat) :
    Except PyError ℚ :=
  tfidf_loop idx fid 0 (pyDedup [] qtokens)

/-- snippets.make_snippets as invoked by search_and (query.py lines 107-109):
its path parameter receives unit_store[file_id], a list of unit strings, and
make_snippets immediately calls open(path) (snippets.py line 149), which
raises TypeError on a list; were it handed a real path, the match helper
would call tokenizer.tokenize_line (snippets.py line 10), which does not
exist in tokenizer.py. -/
def make_snippets_on_units (_units _qtokens : List String) : Except PyError (List String) :=
  Except.error PyError.typeErrorOpenUnitsList

/-- The body of the result loop of search_and (query.py lines 88-111) for one
file id, in source order: files[file_id].path (IndexError when out of
range), matches count (raises at the first matching hit), score, snippets
from unit_store[file_id] (KeyError when absent, then the make_snippets
TypeError). -/
def build_one_result (files : List FileRecord) (unit_store : UnitStore)
    (assoc : List (String × List Hit)) (score_idx : Index) (qtokens : List String)
    (fid : Nat) : Except PyError SearchResult :=
  match files[fid]? with
  | none => Except.error PyError.indexErrorFiles
  | some r =>
    match count_matches assoc qtokens fid with
    | Except.error e => Except.error e
    | Except.ok mc =>
      match tfidf_score_for_file score_idx qtokens fid with
      | Except.error e => Except.error e
      | Except.ok sc =>
        match unit_store.find? (fun p => decide (p.1 = fid)) with
        | none => Except.error PyError.keyErrorUnitStore
        | some units =>
          match make_snippets_on_units units.2 qtokens with
          | Except.error e => Except.error e
          | Except.ok sn => Except.ok ⟨r.path, mc, sc, sn⟩

/-- The result loop of search_and over the common file ids. -/
def build_results (files : List FileRecord) (unit_store : UnitStore)
    (assoc : List (String × List Hit)) (score_idx : Index) (qtokens : List String) :
    List Nat → Except PyError (List SearchResult)
  | [] => Except.ok []
  | fid :: rest => do
    let r ← build_one_result files unit_store assoc score_idx qtokens fid
    let rs ← build_results files unit_store assoc score_idx qtokens rest
    Except.ok (r :: rs)

/-- Python string comparison: lexicographic on characters. -/
def charListLe : List Char → List Char → Bool
  | [], _ => true
  | _ :: _, [] => false
  | c :: cs, d :: ds => if c = d then charListLe cs ds else decide (c < d)

/-- The ascending sort key order of results.sort(key=lambda r: (-r.score,
-r.matches_count, r.path)). -/
def result_le (a b : SearchResult) : Bool :=
  if a.score = b.score then
    if a.matches_count = b.matches_count then charListLe a.path.data b.path.data
    else decide (b.matches_count < a.matches_count)
  else decide (b.score < a.score)

/-- Stable insertion keeping an element after earlier equals, as list.sort does. -/
def stable_insert (le : SearchResult → SearchResult → Bool) (x : SearchResult) :
    List SearchResult → List SearchResult
  | [] => [x]
  | y :: ys => if le y x then y :: stable_insert le x ys else x :: y :: ys

/-- Python list.sort (stable, ascending by key), modelled as insertion sort. -/
def py_sort (le : SearchResult → SearchResult → Bool) (l : List SearchResult) :
    List SearchResult :=
  l.foldl (fun acc x => stable_insert le x acc) []

/-- search_and from src/core/query.py lines 40-114.  The empty-token and
zero-posting early exits and the empty-intersection case return the empty
list without touching any missing Hit attribute; every file id that survives
the intersection reaches count_matches, whose h.unit_index read raises.  The
score dict is the raw index when case-sensitive, else the per-token hit map
(query.py lines 101-106). -/
def search_and (query : String) (unit_store : UnitStore) (files : List FileRecord)
    (index : Index) (min_length : Nat) (stopwords : List String) (keep_numbers : Bool)
    (limit : Nat) (case_sensitive : Bool) : Except PyError (List SearchResult) :=
  let qtokens := unique_preserve_order
    (tokenize_query query min_length stopwords keep_numbers case_sensitive)
  if qtokens.isEmpty then Except.ok []
  else
    let cf := build_casefold_index index
    match fetch_token_hits case_sensitive index cf qtokens with
    | none => Except.ok []
    | some (assoc, fsets) =>
      let common := intersect_file_sets fsets
      let score_idx := if case_sensitive then index else assoc
      match build_results files unit_store assoc score_idx qtokens common with
      | Except.error e => Except.error e
      | Except.ok results => Except.ok ((py_sort result_le results).take limit)

/-! ## src/core/snippets.py -/

/-- NUM_OF_SEPARATORS_BETWEEN_LINES dashes (snippets.py line 5). -/
def separator_line : String := String.mk (List.replicate 120 '-')

/-- The shown-lines loop of _format_snippet_block: one line per index in
[start, safe_end), rendered as a space, the line truncated to max_len, then
right-stripped. -/
def snippet_shown_lines (lines : List String) (start safe_end max_len : Nat) : List String :=
  (List.range' start (safe_end - start)).map
    (fun i => " " ++ pyRstrip (pyTake max_len (lines.getD i "")))

/-- _format_snippet_block from src/core/snippets.py lines 114-132: header
"Line k" or "Lines k-m" (1-based, end clipped to the line count), empty string
when there are no lines or start is out of range, then the shown lines and a
separator line. -/
def format_snippet_block (lines : List String) (start stop max_len : Nat) : String :=
  let display_start := start + 1
  let safe_end := min stop lines.length
  let display_end := safe_end
  let header :=
    if display_start ≠ display_end
    then "Lines " ++ toString display_start ++ "-" ++ toString display_end
    else "Line " ++ toString display_start
  if lines.isEmpty ∨ lines.length ≤ start then ""
  else
    header ++ "\n" ++ pyJoin "\n" (snippet_shown_lines lines start safe_end max_len)
      ++ "\n" ++ separator_line ++ "\n"

/-! ## src/core/extractors.py (plaintext and CSV)

File access is modelled by a map from path to the file's data: its byte size,
whether it decodes as UTF-8 (plaintext extraction opens with errors="ignore"
and cannot hit a decode error; the CSV reader opens strict), its raw text
lines (each including its trailing newline, as Python file iteration yields
them), and its parsed CSV rows. -/

structure FileData : Type where
  size : Nat
  decode_ok : Bool
  lines : List String
  csv_rows : List (List String)

/-- The file system: none when the path does not exist. -/
abbrev FileSystem := String → Option FileData

/-- Exceptions the extraction helpers can raise. -/
inductive ExtractError : Type
  | fileNotFoundError
  | unicodeDecodeError
deriving DecidableEq

/-- MAX_TEXT_FILE_BYTES (extractors.py line 11). -/
def MAX_TEXT_FILE_BYTES : Nat := 8 * 1000000

/-- MAX_TEXT_UNITS (extractors.py line 12). -/
def MAX_TEXT_UNITS : Nat := 500

/-- MAX_TEXT_UNIT_LEN (extractors.py line 13). -/
def MAX_TEXT_UNIT_LEN : Nat := 200

/-- clamp_units from src/core/extractors.py lines 45-46: per unit, slice to
max_len, strip, replace CR/LF/TAB by spaces; then cap the unit count. -/
def clamp_units (units : List String) (max_units max_len : Nat) : List String :=
  (units.map (fun u =>
    String.mk ((pyStrip (pyTake max_len u)).data.map
      (fun c => if c = '\r' ∨ c = '\n' ∨ c = '\t' then ' ' else c)))).take max_units

/-- The line loop of extract_plaintext_units: stop at MAX_TEXT_UNITS collected
lines; format each line as line[:-1].rstrip()[:MAX_TEXT_UNIT_LEN]; skip
empties. -/
def plaintext_lines_loop : List String → Nat → List String
  | [], _ => []
  | l :: ls, n =>
    if n = MAX_TEXT_UNITS then []
    else
      let formatted := pyTake MAX_TEXT_UNIT_LEN (pyRstrip (pyDropLast l))
      if formatted = "" then plaintext_lines_loop ls n
      else formatted :: plaintext_lines_loop ls (n + 1)

/-- extract_plaintext_units from src/core/extractors.py lines 49-62.  An empty
path short-circuits to []; otherwise os.path.getsize runs first and raises
FileNotFoundError when the path does not exist (there is no try block); an
oversized file yields []; otherwise the lines are read with errors="ignore"
(so no decode error), formatted, and clamped. -/
def extract_plaintext_units (fs : FileSystem) (path : String) :
    Except ExtractError (List String) :=
  if path = "" then Except.ok []
  else
    match fs path with
    | none => Except.error ExtractError.fileNotFoundError
    | some fd =>
      if MAX_TEXT_FILE_BYTES < fd.size then Except.ok []
      else Except.ok (clamp_units (plaintext_lines_loop fd.lines 0) MAX_TEXT_UNITS MAX_TEXT_UNIT_LEN)

/-- read_csv_sample_rows from src/core/extractors.py lines 71-81: open(path)
raises FileNotFoundError when the path does not exist and UnicodeDecodeError
when the bytes do not decode (no try block); otherwise the first max_rows
parsed rows. -/
def read_csv_sample_rows (fs : FileSystem) (path : String) (max_rows : Nat) :
    Except ExtractError (List (List String)) :=
  match fs path with
  | none => Except.error ExtractError.fileNotFoundError
  | some fd =>
    if fd.decode_ok then Except.ok (fd.csv_rows.take max_rows)
    else Except.error ExtractError.unicodeDecodeError

theorem pyDedup_mem {α : Type} [DecidableEq α] (l : List α) :
    ∀ seen (a : α), a ∈ pyDedup seen l ↔ a ∈ l ∧ a ∉ seen := by
  induction l with
  | nil => intro seen a; simp [pyDedup]
  | cons x xs ih =>
    intro seen a
    simp only [pyDedup]
    split
    · rename_i hx
      rw [ih seen a]
      constructor
      · rintro ⟨ha, hs⟩; exact ⟨List.mem_cons_of_mem x ha, hs⟩
      · rintro ⟨ha, hs⟩
        rcases List.mem_cons.mp ha with h | h
        · exact absurd (h ▸ hx) hs
        · exact ⟨h, hs⟩
    · rename_i hx
      rw [List.mem_cons, ih (x :: seen) a]
      constructor
      · rintro (rfl | ⟨ha, hs⟩)
        · exact ⟨List.mem_cons_self a xs, hx⟩
        · refine ⟨List.mem_cons_of_mem x ha, fun hm => hs (List.mem_cons_of_mem x hm)⟩
      · rintro ⟨hax, hs⟩
        by_cases heq : a = x
        · exact Or.inl heq
        · rcases List.mem_cons.mp hax with h | h
          · exact absurd h heq
          · refine Or.inr ⟨h, fun hm => ?_⟩
            rcases List.mem_cons.mp hm with h2 | h2
            · exact heq h2
            · exact hs h2

/-- Dict membership agrees with key-list membership. -/
theorem hasKey_iff {κ α : Type} [DecidableEq κ] (d : List (κ × α)) (k : κ) :
    hasKey d k = true ↔ k ∈ d.map Prod.fst := by
  simp [hasKey, List.find?_isSome, List.mem_map]

/-- A key is in the key list exactly when some entry carries it. -/
theorem mem_map_fst_iff {κ α : Type} (l : List (κ × α)) (k : κ) :
    k ∈ l.map Prod.fst ↔ ∃ v, (k, v) ∈ l := by
  constructor
  · intro h
    rcases List.mem_map.mp h with ⟨⟨k2, v⟩, hv, hk⟩
    simp only at hk
    subst hk
    exact ⟨v, hv⟩
  · rintro ⟨v, hv⟩
    exact List.mem_map.mpr ⟨(k, v), hv, rfl⟩

/-- With duplicate-free keys, find? locates exactly the entry of a key. -/
theorem find?_eq_some_of_mem_nodup {κ α : Type} [DecidableEq κ] {d : List (κ × α)} {k : κ} {v : α}
    (hnd : (d.map Prod.fst).Nodup) (hm : (k, v) ∈ d) :
    d.find? (fun p => decide (p.1 = k)) = some (k, v) := by
  induction d with
  | nil => cases hm
  | cons x xs ih =>
    have hnd2 : (x.1 :: xs.map Prod.fst).Nodup := by simpa using hnd
    rcases List.mem_cons.mp hm with heq | hm2
    · rw [← heq]
      simp [List.find?]
    · have hx : ¬ (x.1 = k) := by
        intro he
        have hk : k ∈ xs.map Prod.fst := List.mem_map.mpr ⟨(k, v), hm2, rfl⟩
        exact (List.nodup_cons.mp hnd2).1 (he ▸ hk)
      rw [List.find?_cons_of_neg]
      · exact ih (List.nodup_cons.mp hnd2).2 hm2
      · simp [hx]

/-- With duplicate-free keys, a key determines its value. -/
theorem mem_keys_unique {κ α : Type} [DecidableEq κ] {d : List (κ × α)} {k : κ} {v w : α}
    (hnd : (d.map Prod.fst).Nodup) (hv : (k, v) ∈ d) (hw : (k, w) ∈ d) : v = w := by
  have h1 := find?_eq_some_of_mem_nodup hnd hv
  have h2 := find?_eq_some_of_mem_nodup hnd hw
  rw [h1] at h2
  cases h2
  rfl

/-- Unfolds the boolean size/mtime comparison of diff_files. -/
theorem sameFileState_iff (g f : FileRecord) :
    sameFileState g f = true ↔ g.size = f.size ∧ |g.mtime - f.mtime| ≤ 2 := by
  simp [sameFileState]

/-- Unfolds the unchanged test of diff_files against old-map membership. -/
theorem isUnchangedEntry_iff {old : List (Nat × FileRecord)}
    (hold : (old.map Prod.fst).Nodup) (fid : Nat) (f : FileRecord) :
    isUnchangedEntry old (fid, f) = true ↔
      ∃ g, (fid, g) ∈ old ∧ sameFileState g f = true := by
  unfold isUnchangedEntry
  cases hfind : old.find? (fun q => decide (q.1 = fid)) with
  | none =>
    simp only [Bool.false_eq_true, false_iff]
    rintro ⟨g, hg, _⟩
    have := List.find?_eq_none.mp hfind (fid, g) hg
    simp at this
  | some q =>
    have hq1 : q.1 = fid := by
      have := List.find?_some hfind
      simpa using this
    have hqm : q ∈ old := List.mem_of_find?_eq_some hfind
    constructor
    · intro hs
      refine ⟨q.2, ?_, hs⟩
      have heq : (fid, q.2) = q := by rw [← hq1]
      exact heq ▸ hqm
    · rintro ⟨g, hg, hs⟩
      have h2 := find?_eq_some_of_mem_nodup hold hg
      rw [hfind] at h2
      cases h2
      exact hs

/-- Maps indexing over range' to mapping over the corresponding list slice. -/
theorem range'_getD_map_eq {α β : Type} (l : List α) (dflt : α) (f : α → β) :
    ∀ (len s : Nat), s + len ≤ l.length →
      (List.range' s len).map (fun i => f (l.getD i dflt)) = ((l.drop s).take len).map f := by
  intro len
  induction len with
  | zero => intro s h; simp
  | succ n ih =>
    intro s h
    have hs : s < l.length := by omega
    rw [show List.range' s (n + 1) = s :: List.range' (s + 1) n from rfl]
    rw [List.drop_eq_getElem_cons hs]
    simp only [List.map_cons, List.take_succ_cons]
    rw [List.getD_eq_getElem l dflt hs]
    exact congrArg (fun t => f l[s] :: t) (ih (s + 1) (by omega))

/-- The token loop of search_and takes the strict-AND early exit when any
token has no postings. -/
theorem fetch_token_hits_none (cs : Bool) (index cfIndex : Index) :
    ∀ (toks : List String), (∃ tok ∈ toks, consulted_hits cs index cfIndex tok = []) →
      fetch_token_hits cs index cfIndex toks = none := by
  intro toks
  induction toks with
  | nil =>
    rintro ⟨tok, htok, _⟩
    cases htok
  | cons t rest ih =>
    rintro ⟨tok, htok, hempty⟩
    simp only [fetch_token_hits]
    rcases List.mem_cons.mp htok with rfl | hmem
    · rw [if_pos (by simp [hempty])]
    · by_cases hc : (consulted_hits cs index cfIndex t).isEmpty
      · rw [if_pos hc]
      · rw [if_neg hc, ih ⟨tok, hmem, hempty⟩]

/-! ## Claim theorems -/

/-- C9 counterexample: the claim says the header line reads "Unit k" for a
single-unit window.  For the one-line window over ["hello"] the source
renders the header "Line 1", not "Unit 1". -/
theorem c9_header_reads_line_not_unit :
    format_snippet_block ["hello"] 0 1 180 = "Line 1\n hello\n" ++ separator_line ++ "\n"
    ∧ format_snippet_block ["hello"] 0 1 180 ≠ "Unit 1\n hello\n" ++ separator_line ++ "\n" := by
  refine ⟨by decide, by decide⟩

/-- C9 as amended: for a window whose start lies within the unit list, the
block is the header line ("Line k" for a single clipped unit, "Lines k-m" for
a range, k = start+1 and m = min(end, unit count), both 1-based), then each
window unit's text truncated to max_len and right-trimmed behind a leading
space, then the separator line. -/
theorem c9_format_snippet_block_characterization :
    ∀ (lines : List String) (start stop max_len : Nat), start < lines.length →
      format_snippet_block lines start stop max_len =
        (if start + 1 = min stop lines.length
         then "Line " ++ toString (start + 1)
         else "Lines " ++ toString (start + 1) ++ "-" ++ toString (min stop lines.length))
        ++ "\n"
        ++ pyJoin "\n" (((lines.drop start).take (min stop lines.length - start)).map
            (fun u => " " ++ pyRstrip (pyTake max_len u)))
        ++ "\n" ++ separator_line ++ "\n" := by
  intro lines start stop max_len hstart
  have hguard : ¬ (lines.isEmpty ∨ lines.length ≤ start) := by
    push_neg
    constructor
    · rcases lines with _ | _
      · simp at hstart
      · simp
    · omega
  have hslice := range'_getD_map_eq lines "" (fun u => " " ++ pyRstrip (pyTake max_len u))
    (min stop lines.length - start) start (by omega)
  simp only [format_snippet_block, snippet_shown_lines, if_neg hguard]
  rw [hslice]
  by_cases h : start + 1 = min stop lines.length
  · rw [if_neg (show ¬ (start + 1 ≠ min stop lines.length) from fun hh => hh h), if_pos h]
  · rw [if_pos h, if_neg h]

/-- Witness for C9: the two-unit window over ["alpha", "beta"] renders with
the "Lines 1-2" header. -/
theorem c9_format_snippet_block_characterization_witness :
    format_snippet_block ["alpha", "beta"] 0 2 180
      = "Lines 1-2\n alpha\n beta\n" ++ separator_line ++ "\n" := by
  rw [c9_format_snippet_block_characterization ["alpha", "beta"] 0 2 180 (by decide)]
  decide


/-- C2: diff_files classifies each new id present in old as unchanged exactly
when the sizes are identical and the mtimes differ by at most 2.0 seconds, as
modified exactly when present in old but failing that test, as added exactly
when absent from old; deleted is exactly the old-only id set; the four result
lists are pairwise disjoint and unchanged, modified and added together cover
exactly the new id set while deleted equals old ids minus new ids. -/
theorem c2_diff_files_classification :
    ∀ (old new : List (Nat × FileRecord)),
      (old.map Prod.fst).Nodup → (new.map Prod.fst).Nodup →
      ((∀ fid : Nat, fid ∈ (diff_files old new).1 ↔
          ∃ f g, (fid, f) ∈ new ∧ (fid, g) ∈ old ∧
            g.size = f.size ∧ |g.mtime - f.mtime| ≤ 2)
      ∧ (∀ fid : Nat, fid ∈ (diff_files old new).2.1 ↔
          ∃ f g, (fid, f) ∈ new ∧ (fid, g) ∈ old ∧
            ¬(g.size = f.size ∧ |g.mtime - f.mtime| ≤ 2))
      ∧ (∀ fid : Nat, fid ∈ (diff_files old new).2.2.2 ↔
          fid ∈ new.map Prod.fst ∧ fid ∉ old.map Prod.fst)
      ∧ (∀ fid : Nat, fid ∈ (diff_files old new).2.2.1 ↔
          fid ∈ old.map Prod.fst ∧ fid ∉ new.map Prod.fst)
      ∧ (∀ fid : Nat, ¬(fid ∈ (diff_files old new).1 ∧ fid ∈ (diff_files old new).2.1))
      ∧ (∀ fid : Nat, ¬(fid ∈ (diff_files old new).1 ∧ fid ∈ (diff_files old new).2.2.2))
      ∧ (∀ fid : Nat, ¬(fid ∈ (diff_files old new).2.1 ∧ fid ∈ (diff_files old new).2.2.2))
      ∧ (∀ fid : Nat, ¬(fid ∈ (diff_files old new).2.2.1 ∧ fid ∈ (diff_files old new).1))
      ∧ (∀ fid : Nat, ¬(fid ∈ (diff_files old new).2.2.1 ∧ fid ∈ (diff_files old new).2.1))
      ∧ (∀ fid : Nat, ¬(fid ∈ (diff_files old new).2.2.1 ∧ fid ∈ (diff_files old new).2.2.2))
      ∧ ((diff_files old new).1.toFinset ∪ (diff_files old new).2.1.toFinset
          ∪ (diff_files old new).2.2.2.toFinset = (new.map Prod.fst).toFinset)
      ∧ ((diff_files old new).2.2.1.toFinset
          = (old.map Prod.fst).toFinset \ (new.map Prod.fst).toFinset)) := by
  intro old new hold hnew
  have hu : ∀ fid : Nat, fid ∈ (diff_files old new).1 ↔
      ∃ f g, (fid, f) ∈ new ∧ (fid, g) ∈ old ∧
        g.size = f.size ∧ |g.mtime - f.mtime| ≤ 2 := by
    intro fid
    simp only [diff_files]
    rw [mem_map_fst_iff]
    constructor
    · rintro ⟨f, hf⟩
      have hmem := (List.mem_filter.mp hf).1
      have hun := (List.mem_filter.mp hf).2
      rcases (isUnchangedEntry_iff hold fid f).mp hun with ⟨g, hg, hs⟩
      exact ⟨f, g, hmem, hg, (sameFileState_iff g f).mp hs⟩
    · rintro ⟨f, g, hmem, hg, hs⟩
      exact ⟨f, List.mem_filter.mpr ⟨hmem,
        (isUnchangedEntry_iff hold fid f).mpr ⟨g, hg, (sameFileState_iff g f).mpr hs⟩⟩⟩
  have hm : ∀ fid : Nat, fid ∈ (diff_files old new).2.1 ↔
      ∃ f g, (fid, f) ∈ new ∧ (fid, g) ∈ old ∧
        ¬(g.size = f.size ∧ |g.mtime - f.mtime| ≤ 2) := by
    intro fid
    simp only [diff_files]
    rw [mem_map_fst_iff]
    constructor
    · rintro ⟨f, hf⟩
      have hmem := (List.mem_filter.mp hf).1
      have hcond := (List.mem_filter.mp hf).2
      rw [Bool.and_eq_true, Bool.not_eq_true'] at hcond
      rcases (mem_map_fst_iff old fid).mp ((hasKey_iff old fid).mp hcond.1) with ⟨g, hg⟩
      refine ⟨f, g, hmem, hg, fun hsame => ?_⟩
      have hun : isUnchangedEntry old (fid, f) = true :=
        (isUnchangedEntry_iff hold fid f).mpr ⟨g, hg, (sameFileState_iff g f).mpr hsame⟩
      rw [hun] at hcond
      exact absurd hcond.2 (by simp)
    · rintro ⟨f, g, hmem, hg, hs⟩
      refine ⟨f, List.mem_filter.mpr ⟨hmem, ?_⟩⟩
      rw [Bool.and_eq_true, Bool.not_eq_true']
      refine ⟨(hasKey_iff old fid).mpr ((mem_map_fst_iff old fid).mpr ⟨g, hg⟩), ?_⟩
      by_contra hun
      rw [Bool.not_eq_false] at hun
      rcases (isUnchangedEntry_iff hold fid f).mp hun with ⟨g2, hg2, hs2⟩
      have hgg : g2 = g := mem_keys_unique hold hg2 hg
      subst hgg
      exact hs ((sameFileState_iff g2 f).mp hs2)
  have ha : ∀ fid : Nat, fid ∈ (diff_files old new).2.2.2 ↔
      fid ∈ new.map Prod.fst ∧ fid ∉ old.map Prod.fst := by
    intro fid
    simp only [diff_files]
    rw [mem_map_fst_iff]
    constructor
    · rintro ⟨f, hf⟩
      have hmem := (List.mem_filter.mp hf).1
      have hcond := (List.mem_filter.mp hf).2
      rw [Bool.not_eq_true'] at hcond
      refine ⟨(mem_map_fst_iff new fid).mpr ⟨f, hmem⟩, fun hk => ?_⟩
      have hk2 := (hasKey_iff old fid).mpr hk
      rw [hcond] at hk2
      exact absurd hk2 (by simp)
    · rintro ⟨hmemk, hnot⟩
      rcases (mem_map_fst_iff new fid).mp hmemk with ⟨f, hf⟩
      refine ⟨f, List.mem_filter.mpr ⟨hf, ?_⟩⟩
      rw [Bool.not_eq_true']
      by_contra hk2
      rw [Bool.not_eq_false] at hk2
      exact hnot ((hasKey_iff old fid).mp hk2)
  have hd : ∀ fid : Nat, fid ∈ (diff_files old new).2.2.1 ↔
      fid ∈ old.map Prod.fst ∧ fid ∉ new.map Prod.fst := by
    intro fid
    simp only [diff_files]
    rw [pyDedup_mem]
    simp only [List.not_mem_nil, not_false_iff, and_true]
    rw [List.mem_filter]
    constructor
    · rintro ⟨hmem, hcond⟩
      rw [Bool.not_eq_true'] at hcond
      refine ⟨hmem, fun hk => ?_⟩
      have hk2 := (hasKey_iff new fid).mpr hk
      rw [hcond] at hk2
      exact absurd hk2 (by simp)
    · rintro ⟨hmem, hnot⟩
      refine ⟨hmem, ?_⟩
      rw [Bool.not_eq_true']
      by_contra hk2
      rw [Bool.not_eq_false] at hk2
      exact hnot ((hasKey_iff new fid).mp hk2)
  refine ⟨hu, hm, ha, hd, ?_, ?_, ?_, ?_, ?_, ?_, ?_, ?_⟩
  · rintro fid ⟨h1, h2⟩
    rcases (hu fid).mp h1 with ⟨f, g, hf, hg, hs⟩
    rcases (hm fid).mp h2 with ⟨f2, g2, hf2, hg2, hs2⟩
    have hff : f = f2 := mem_keys_unique hnew hf hf2
    have hgg : g = g2 := mem_keys_unique hold hg hg2
    subst hff; subst hgg
    exact hs2 hs
  · rintro fid ⟨h1, h2⟩
    rcases (hu fid).mp h1 with ⟨f, g, hf, hg, _⟩
    exact ((ha fid).mp h2).2 ((mem_map_fst_iff old fid).mpr ⟨g, hg⟩)
  · rintro fid ⟨h1, h2⟩
    rcases (hm fid).mp h1 with ⟨f, g, hf, hg, _⟩
    exact ((ha fid).mp h2).2 ((mem_map_fst_iff old fid).mpr ⟨g, hg⟩)
  · rintro fid ⟨h1, h2⟩
    rcases (hu fid).mp h2 with ⟨f, g, hf, hg, _⟩
    exact ((hd fid).mp h1).2 ((mem_map_fst_iff new fid).mpr ⟨f, hf⟩)
  · rintro fid ⟨h1, h2⟩
    rcases (hm fid).mp h2 with ⟨f, g, hf, hg, _⟩
    exact ((hd fid).mp h1).2 ((mem_map_fst_iff new fid).mpr ⟨f, hf⟩)
  · rintro fid ⟨h1, h2⟩
    exact ((hd fid).mp h1).2 ((ha fid).mp h2).1
  · ext fid
    simp only [Finset.mem_union, List.mem_toFinset]
    constructor
    · rintro ((h | h) | h)
      · rcases (hu fid).mp h with ⟨f, g, hf, _, _⟩
        exact (mem_map_fst_iff new fid).mpr ⟨f, hf⟩
      · rcases (hm fid).mp h with ⟨f, g, hf, _, _⟩
        exact (mem_map_fst_iff new fid).mpr ⟨f, hf⟩
      · exact ((ha fid).mp h).1
    · intro hmem
      rcases (mem_map_fst_iff new fid).mp hmem with ⟨f, hf⟩
      by_cases hk2 : fid ∈ old.map Prod.fst
      · rcases (mem_map_fst_iff old fid).mp hk2 with ⟨g, hg⟩
        by_cases hs : g.size = f.size ∧ |g.mtime - f.mtime| ≤ 2
        · exact Or.inl (Or.inl ((hu fid).mpr ⟨f, g, hf, hg, hs⟩))
        · exact Or.inl (Or.inr ((hm fid).mpr ⟨f, g, hf, hg, hs⟩))
      · exact Or.inr ((ha fid).mpr ⟨hmem, hk2⟩)
  · ext fid
    simp only [Finset.mem_sdiff, List.mem_toFinset]
    exact hd fid

/-- Witness for C2: with an empty old snapshot, the single scanned file id 0
is classified added. -/
theorem c2_diff_files_classification_witness :
    0 ∈ (diff_files [] [(0, ⟨"a.txt", 1, 0, FileType.TXT⟩)]).2.2.2 := by
  have h := c2_diff_files_classification [] [(0, ⟨"a.txt", 1, 0, FileType.TXT⟩)]
    (by decide) (by decide)
  exact (h.2.2.1 0).mpr ⟨by decide, by decide⟩

/-- C6: the claim says the casefold index returned by the incremental rebuild
equals the casefold derivation of the primary index returned by the same
call.  No call ever returns: engine.py never imports deepcopy, so the
statement new_index = deepcopy(old_index) at line 50 raises NameError before
the rebuild (and before the line-63 build_casefold_index(old_index), which
would itself derive the casefold index from the old index rather than the
new one).  Evaluated at a concrete rebuild from an empty snapshot. -/
theorem c6_rebuild_raises_nameerror :
    engine_rebuild_index_incremental (fun _ _ => ["foo"]) [] [] [] []
      [⟨"a.txt", 1, 0, FileType.TXT⟩] 2 [] true false
    = Except.error PyError.nameErrorDeepcopy := by
  decide

/-- C7: the claim says the extractors never raise and return an empty unit
sequence on any read failure, including a missing file.  In the source,
extract_plaintext_units calls os.path.getsize outside any try block and
read_csv_sample_rows opens the file outside any try block, so a missing path
raises FileNotFoundError in both, and undecodable bytes raise
UnicodeDecodeError in the CSV reader. -/
theorem c7_extractors_raise_on_missing_file :
    extract_plaintext_units (fun _ => none) "missing.txt"
      = Except.error ExtractError.fileNotFoundError
    ∧ read_csv_sample_rows (fun _ => none) "missing.csv" 20
      = Except.error ExtractError.fileNotFoundError
    ∧ read_csv_sample_rows
        (fun p => if p = "bad.csv" then some ⟨10, false, [], []⟩ else none) "bad.csv" 20
      = Except.error ExtractError.unicodeDecodeError := by
  refine ⟨by decide, by decide, by decide⟩

/-- C10: the claim says constructing the Hit record with fields file_id,
unit_index and count succeeds against the Hit type declared in the data model.
models.py declares the Hit NamedTuple with fields (file_id, line_no, start,
end), while build_index passes the keywords (file_id, unit_index, count), so
the construction raises TypeError on any unit with at least one token. -/
theorem c10_hit_keywords_not_declared_fields :
    "unit_index" ∈ indexerHitConstructionKeywords
    ∧ "count" ∈ indexerHitConstructionKeywords
    ∧ "unit_index" ∉ modelsHitDeclaredFields
    ∧ "count" ∉ modelsHitDeclaredFields := by
  decide

/-- C5: the claim says build_index appends one Hit per distinct token of each
unit whose count is the token's frequency in that unit.  At the unit "aa aa"
the source instead raises TypeError at its first Hit construction (the
declared Hit has no unit_index/count fields), recording nothing; and even
the construction it attempts passes count 1, not the frequency 2, because
filter_tokens deduplicates the unit's tokens before Counter sees them (the
deduplicated token list is ["aa"] although "aa" occurs twice among the
normalized split tokens). -/
theorem c5_build_index_raises_typeerror :
    build_index [(0, ⟨"f.txt", 5, 0, FileType.TXT⟩)] [(0, ["aa aa"])] 2 [] true
      = Except.error PyError.typeErrorHitKeywords
    ∧ tokenize_unit "aa aa" 2 [] true false = ["aa"]
    ∧ (split_to_tokens (normalize_text "aa aa" true false)).count "aa" = 2 := by
  refine ⟨by decide, by decide, by decide⟩

/-- C4: the claim says remove_file_from_index then add_file_to_index with the
same id and new units restores exactly the postings of a fresh build of that
file.  remove_file_from_index succeeds (it reads only hit.file_id), but
add_file_to_index raises TypeError at its first Hit construction on any
token-bearing unit — after the removal has already stripped the file's old
postings — and the fresh single-file build_index raises the same TypeError,
so neither side of the claimed equation ever produces postings. -/
theorem c4_add_file_raises_typeerror :
    add_file_to_index
        (remove_file_from_index [("aa", [⟨0, 0, none, none⟩, ⟨1, 0, none, none⟩])] 1)
        1 ["aa"] 2 [] true
      = Except.error PyError.typeErrorHitKeywords
    ∧ remove_file_from_index [("aa", [⟨0, 0, none, none⟩, ⟨1, 0, none, none⟩])] 1
      = [("aa", [⟨0, 0, none, none⟩])]
    ∧ build_index [(1, ⟨"b.txt", 2, 0, FileType.TXT⟩)] [(1, ["aa"])] 2 [] true
      = Except.error PyError.typeErrorHitKeywords := by
  refine ⟨by decide, by decide, by decide⟩

/-- C3: the claim says loading after saving reconstructs the snapshot.  For
any snapshot whose index holds at least one posting, save_index raises
AttributeError reading hit.unit_index (persist.py line 69); and loading any
persisted line that carries a [unit_index, count] pair raises TypeError at
the three-positional-argument Hit construction (persist.py line 131).  The
round trip completes — and is exact — only for snapshots whose posting lists
are all empty, as the last conjunct shows. -/
theorem c3_save_or_load_raises_on_postings :
    save_index [(0, ⟨"f.txt", 7, 0, FileType.TXT⟩)] [("f.txt", 0)]
        [("aa", [⟨0, 0, none, none⟩])] "1"
      = Except.error PyError.attributeErrorHitUnitIndex
    ∧ load_index ⟨"1", [("f.txt", 0)], [⟨0, "f.txt", 7, 0, "TXT"⟩], [("aa", [(0, [(0, 1)])])]⟩
      = Except.error PyError.typeErrorHitMissingEnd
    ∧ (save_index [(0, ⟨"f.txt", 7, 0, FileType.TXT⟩)] [("f.txt", 0)]
        [("aa", [])] "1").bind load_index
      = Except.ok ([(0, ⟨"f.txt", 7, 0, FileType.TXT⟩)], [("f.txt", 0)], [("aa", [])]) := by
  refine ⟨by decide, by decide, by decide⟩

/-- C1: the claim says every file in search_and's result list contains every
deduplicated query token, with the empty list when any token has zero
postings in the consulted index.  The zero-postings half is real: part (a)
proves the strict-AND early exit for every query and snapshot.  The
membership half is unreachable: part (b) evaluates the query "foo" against
an index that posts "foo" for file 0 — a file containing every query token —
and the call raises AttributeError reading h.unit_index (query.py line 97)
instead of returning that file; the same happens for every file id surviving
the intersection, so the source never returns a nonempty result list. -/
theorem c1_search_and_empty_exit_and_match_crash :
    (∀ (query : String) (unit_store : UnitStore) (files : List FileRecord) (index : Index)
       (ml : Nat) (sw : List String) (kn : Bool) (limit : Nat) (cs : Bool),
      (∃ tok ∈ unique_preserve_order (tokenize_query query ml sw kn cs),
          consulted_hits cs index (build_casefold_index index) tok = []) →
        search_and query unit_store files index ml sw kn limit cs = Except.ok [])
    ∧ search_and "foo" [(0, ["foo"])] [⟨"f.txt", 1, 0, FileType.TXT⟩]
        [("foo", [⟨0, 0, none, none⟩])] 2 [] true 50 false
      = Except.error PyError.attributeErrorHitUnitIndex := by
  constructor
  · intro query unit_store files index ml sw kn limit cs hex
    rcases hex with ⟨tok, htok, hempty⟩
    simp only [search_and]
    by_cases hq : (unique_preserve_order (tokenize_query query ml sw kn cs)).isEmpty
    · rw [if_pos hq]
    · rw [if_neg hq]
      rw [fetch_token_hits_none cs index (build_casefold_index index) _ ⟨tok, htok, hempty⟩]
  · decide

/-- Witness for C1: querying "foo bar" against an index holding only "foo"
returns the empty result list. -/
theorem c1_search_and_empty_exit_and_match_crash_witness :
    search_and "foo bar" [(0, ["foo"])] [⟨"f.txt", 1, 0, FileType.TXT⟩]
      [("foo", [⟨0, 0, none, none⟩])] 2 [] true 50 false = Except.ok [] :=
  c1_search_and_empty_exit_and_match_crash.1 "foo bar" [(0, ["foo"])]
    [⟨"f.txt", 1, 0, FileType.TXT⟩] [("foo", [⟨0, 0, none, none⟩])] 2 [] true 50 false
    ⟨"bar", by decide, by decide⟩

end MiniGoogle
